import Mathlib

set_option maxRecDepth 100000

/-!
Shallow embedding of the OVMS → ABRP telemetry plugin (`src/lib/abrp.js`,
version 2.1.0-alpha, the first and authoritative script in that file) and
proofs about its sampling, mapping and send-decision logic.

Modelling conventions:
* JavaScript dynamic values are modelled by `Abrp.JSValue`
  (numbers as exact rationals, strings, booleans, `null` and `undefined`);
  IEEE-754 artefacts and NaN are outside the model, as are the implicit
  string-to-number coercions of JavaScript relational operators (the
  metrics compared numerically by the script are numeric signals).
* A telemetry record is a structure with one `Option JSValue` field per
  canonical ABRP field: `none` means the property is absent from the
  object, `some v` means it is present with value `v`.  Reading a field
  of a JavaScript object that is absent yields `undefined`, which
  `readField` reproduces.
* The host metrics registry, the wall clock, the vehicle type and the
  user configuration are bundled into an `Env` record; the process-wide
  mutable variables of the script form `AgentState`; observable side
  effects (HTTP requests, notifications, warnings, error logs) are
  reified as an `Action` list.
-/

namespace Abrp

/-- A JavaScript value as used by the plugin: a (rational) number, a
string, a boolean, `null` or `undefined`. -/
inductive JSValue where
  | num (q : ℚ)
  | str (s : String)
  | bool (b : Bool)
  | null
  | undef
deriving DecidableEq

/-- JavaScript truthiness of a value (`0`, `""`, `false`, `null` and
`undefined` are falsy). -/
def jsTruthy : JSValue → Bool
  | .num q => q ≠ 0
  | .str s => s ≠ ""
  | .bool b => b
  | .null => false
  | JSValue.undef => false

/-- Reading a property of a JavaScript object: an absent property reads
as `undefined`. -/
def readField (o : Option JSValue) : JSValue :=
  o.getD JSValue.undef

/-- JavaScript `v > c` against a numeric constant: true only when `v` is
a number greater than `c` (comparisons against `undefined` are false;
booleans coerce via ToNumber; numeric-string coercion is not modelled). -/
def jsNumGt : JSValue → ℚ → Bool
  | .num q, c => decide (q > c)
  | .bool b, c => decide (((if b then 1 else 0) : ℚ) > c)
  | _, _ => false

/-- JavaScript `a > b` between two values, on the numeric fragment of
the model (non-numeric operands behave like NaN: the comparison is
false). -/
def jsGtV : JSValue → JSValue → Bool
  | .num a, .num b => decide (a > b)
  | _, _ => false

/-- JavaScript `a >= b`, on the numeric fragment of the model. -/
def jsGeV : JSValue → JSValue → Bool
  | .num a, .num b => decide (a ≥ b)
  | _, _ => false

/-- JavaScript `a - b`, on the numeric fragment of the model
(non-numeric operands yield `undefined`, standing in for NaN). -/
def jsSub : JSValue → JSValue → JSValue
  | .num a, .num b => .num (a - b)
  | _, _ => JSValue.undef

/-- JavaScript `a * b`, on the numeric fragment of the model
(non-numeric operands yield `undefined`, standing in for NaN). -/
def jsMul : JSValue → JSValue → JSValue
  | .num a, .num b => .num (a * b)
  | _, _ => JSValue.undef

/-- Round a rational to the nearest integer, ties away from zero: the
rounding rule of `Number.prototype.toFixed` (the sign is split off and
the magnitude is rounded half-up). -/
def roundHalfAway (r : ℚ) : ℤ :=
  if r < 0 then -⌊-r + 1 / 2⌋ else ⌊r + 1 / 2⌋

/-- Value `q` rounded to `p` decimal places, ties away from zero: the exact
arithmetic content of `Number(q.toFixed(p))`. -/
def roundTo (q : ℚ) (p : ℕ) : ℚ :=
  (roundHalfAway (q * 10 ^ p) : ℚ) / 10 ^ p

/-- Function `round(number, precision)` from `src/lib/abrp.js` lines 91-96: a
falsy argument (`0`, `null`, `undefined`, and also `false` / `""`) is
returned unchanged, otherwise the number is rounded to `precision`
decimal places.  (On a truthy non-number JavaScript would throw; such
values never reach `round` in the plugin and are returned unchanged
here.)  A missing `precision` argument is `p = 0`, matching
`precision || 0`. -/
def round (v : JSValue) (p : ℕ) : JSValue :=
  if jsTruthy v then
    match v with
    | .num q => .num (roundTo q p)
    | w => w
  else v

lemma floor_half : ⌊(1 / 2 : ℚ)⌋ = 0 := by
  norm_num [Int.floor_eq_iff]

lemma roundHalfAway_intCast (n : ℤ) : roundHalfAway (n : ℚ) = n := by
  unfold roundHalfAway
  rcases lt_or_le (n : ℚ) 0 with h | h
  · rw [if_pos h, show -(n : ℚ) + 1 / 2 = ((-n : ℤ) : ℚ) + 1 / 2 by push_cast; ring,
      Int.floor_int_add, floor_half]
    ring
  · rw [if_neg (not_lt.mpr h), Int.floor_int_add, floor_half]
    ring

lemma roundTo_idem (q : ℚ) (p : ℕ) : roundTo (roundTo q p) p = roundTo q p := by
  unfold roundTo
  rw [div_mul_cancel₀ _ (by positivity : ((10 : ℚ) ^ p) ≠ 0), roundHalfAway_intCast]

/-- C8: the rounding function is idempotent — rounding an already
rounded value at the same precision is a no-op — and `0` (at every
precision), `null` and `undefined` are fixed points of `round`. -/
theorem round_idem_and_fixed_points :
    (∀ v : JSValue, ∀ p : ℕ, round (round v p) p = round v p) ∧
    (∀ p : ℕ, round (.num 0) p = .num 0) ∧
    (∀ p : ℕ, round JSValue.undef p = JSValue.undef) ∧
    (∀ p : ℕ, round .null p = .null) := by
  refine ⟨fun v p => ?_, fun p => rfl, fun p => rfl, fun p => rfl⟩
  cases v with
  | num q =>
    by_cases h0 : q = 0
    · simp [round, jsTruthy, h0]
    · simp only [round, jsTruthy, h0, ne_eq, not_false_eq_true, decide_eq_true_eq,
        if_true, decide_True]
      by_cases hr : roundTo q p = 0
      · simp [hr]
      · simp [hr, roundTo_idem]
  | str s =>
    by_cases h : s = "" <;> simp [round, jsTruthy, h]
  | bool b =>
    cases b <;> simp [round, jsTruthy]
  | null => rfl
  | undef => rfl

/-- A high-frequency sample buffer entry: the `{power, speed}` pair
pushed by `collectHighFrequencyMetrics` (`src/lib/abrp.js` lines
133-144). -/
structure SampleEntry where
  power : ℚ
  speed : ℚ
deriving DecidableEq

/-- Insert an entry into a list sorted in ascending `power` order. -/
def insertByPower (e : SampleEntry) : List SampleEntry → List SampleEntry
  | [] => [e]
  | x :: xs => if e.power ≤ x.power then e :: x :: xs else x :: insertByPower e xs

/-- Model of `array.slice().sort(function (a, b) { return a.power - b.power })`:
sort the entries by ascending power (insertion sort; the source's
comparator orders by the sign of `a.power - b.power`). -/
def sortByPower : List SampleEntry → List SampleEntry
  | [] => []
  | x :: xs => insertByPower x (sortByPower xs)

/-- Function `medianPowerMetrics` from `src/lib/abrp.js` lines 103-120: `null`
on an empty array; otherwise the entry at the midpoint of the array
sorted by power, taking the lower-power of the two middle entries when
the count is even (the readings are deliberately not averaged). -/
def medianPowerMetrics (array : List SampleEntry) : Option SampleEntry :=
  if array.length = 0 then none
  else
    let sorted := sortByPower array
    let midpoint := sorted.length / 2
    if sorted.length % 2 = 0 then sorted[midpoint - 1]? else sorted[midpoint]?

lemma insertByPower_perm (e : SampleEntry) (l : List SampleEntry) :
    List.Perm (insertByPower e l) (e :: l) := by
  induction l with
  | nil => exact List.Perm.refl _
  | cons x xs ih =>
    unfold insertByPower
    split
    · exact List.Perm.refl _
    · exact (List.Perm.cons x ih).trans (List.Perm.swap e x xs)

lemma sortByPower_perm (l : List SampleEntry) : List.Perm (sortByPower l) l := by
  induction l with
  | nil => exact List.Perm.refl _
  | cons x xs ih => exact (insertByPower_perm x (sortByPower xs)).trans (List.Perm.cons x ih)

/-- The odd-count example buffer from the spec and the unit tests. -/
def exampleBuffer5 : List SampleEntry :=
  [⟨1, 10⟩, ⟨2, 4⟩, ⟨3, 3⟩, ⟨4, 2⟩, ⟨10, 1⟩]

/-- The even-count example buffer from the spec and the unit tests. -/
def exampleBuffer4 : List SampleEntry :=
  [⟨1, 10⟩, ⟨3, 3⟩, ⟨4, 2⟩, ⟨10, 1⟩]

lemma medianPowerMetrics_perm5 :
    ∀ l ∈ exampleBuffer5.permutations', medianPowerMetrics l = some ⟨3, 3⟩ := by
  decide

lemma medianPowerMetrics_perm4 :
    ∀ l ∈ exampleBuffer4.permutations', medianPowerMetrics l = some ⟨3, 3⟩ := by
  decide

/-- C2: draining the sample buffer returns none on an empty buffer; on
the five-entry example (odd count), in any order, it returns the entry
at the sorted midpoint `{power:3,speed:3}`; on the four-entry example
(even count), in any order, it returns the lower-power middle entry
`{power:3,speed:3}` and not the average `{power:3.5,speed:2.5}`; and on
every nonempty buffer the result is one of the buffered entries (never
a blended value). -/
theorem medianPowerMetrics_spec :
    medianPowerMetrics [] = none ∧
    (∀ l, List.Perm l exampleBuffer5 → medianPowerMetrics l = some ⟨3, 3⟩) ∧
    (∀ l, List.Perm l exampleBuffer4 → medianPowerMetrics l = some ⟨3, 3⟩) ∧
    medianPowerMetrics exampleBuffer4 ≠ some ⟨7 / 2, 5 / 2⟩ ∧
    (∀ l, l ≠ [] → ∃ e, e ∈ l ∧ medianPowerMetrics l = some e) := by
  refine ⟨rfl, ?_, ?_, ?_, ?_⟩
  · exact fun l h => medianPowerMetrics_perm5 l (List.mem_permutations'.mpr h)
  · exact fun l h => medianPowerMetrics_perm4 l (List.mem_permutations'.mpr h)
  · have h4 : medianPowerMetrics exampleBuffer4 = some ⟨3, 3⟩ := by decide
    rw [h4]
    simp only [ne_eq, Option.some.injEq, SampleEntry.mk.injEq, not_and]
    intro hc
    norm_num at hc
  · intro l hl
    have hlen : l.length ≠ 0 := fun h => hl (List.length_eq_zero.mp h)
    have hslen : (sortByPower l).length = l.length := (sortByPower_perm l).length_eq
    have hpos : 0 < (sortByPower l).length := by omega
    unfold medianPowerMetrics
    rw [if_neg hlen]
    by_cases hpar : (sortByPower l).length % 2 = 0
    · have hi : (sortByPower l).length / 2 - 1 < (sortByPower l).length := by omega
      refine ⟨(sortByPower l)[(sortByPower l).length / 2 - 1], ?_, ?_⟩
      · exact (sortByPower_perm l).mem_iff.mp (List.getElem_mem hi)
      · simp only [hpar, if_true]
        exact List.getElem?_eq_getElem hi
    · have hi : (sortByPower l).length / 2 < (sortByPower l).length := by omega
      refine ⟨(sortByPower l)[(sortByPower l).length / 2], ?_, ?_⟩
      · exact (sortByPower_perm l).mem_iff.mp (List.getElem_mem hi)
      · simp only [hpar, if_false]
        exact List.getElem?_eq_getElem hi

/-- Witness for C2: the theorem applied to a concrete shuffle of the
even-count example buffer. -/
theorem medianPowerMetrics_spec_witness :
    medianPowerMetrics [⟨10, 1⟩, ⟨1, 10⟩, ⟨4, 2⟩, ⟨3, 3⟩] = some ⟨3, 3⟩ :=
  medianPowerMetrics_spec.2.2.1 _ (by decide)

/-- The host environment seen by the plugin: the vehicle type reported
by the registry, the wall clock (`Date.now() / 1000`, in seconds), the
metrics registry (`OvmsMetrics.HasValue` / `OvmsMetrics.GetValues`) and
the `usr abrp.user_token` configuration value. -/
structure Env where
  vehicleType : String
  now : ℚ
  hasValue : String → Bool
  metricValue : String → JSValue
  user_token : JSValue

/-- Function `isOvmsMetricSupported` from `src/lib/abrp.js` lines 193-200: true
iff `OvmsMetrics.HasValue` holds for every required metric. -/
def isOvmsMetricSupported (env : Env) (requiredMetrics : List String) : Bool :=
  requiredMetrics.all env.hasValue

/-- The recurring pattern of `getOVMSMetric`'s switch cases:
`isSupported = isOvmsMetricSupported(requiredMetrics); if (isSupported)
{ value = ... }`, with the declared defaults `isSupported = false`,
`value = null`. -/
def valueIfSupported (env : Env) (requiredMetrics : List String) (v : JSValue) :
    Bool × JSValue :=
  if isOvmsMetricSupported env requiredMetrics then (true, v) else (false, .null)

/-- Function `getOVMSMetric` from `src/lib/abrp.js` lines 207-527: the parameter
switch, returning the `[isSupported, value]` pair.  The `1.1` of the
`est_battery_range` comparison is the exact decimal `11/10` (JavaScript
uses the nearest binary double). -/
def getOVMSMetric (env : Env) (parameter : String) : Bool × JSValue :=
  if parameter = "utc" then (true, .num env.now)
  else if parameter = "soc" then
    if env.vehicleType = "NL" then
      valueIfSupported env ["xnl.v.b.soc.instrument"] (env.metricValue "xnl.v.b.soc.instrument")
    else
      valueIfSupported env ["v.b.soc"] (env.metricValue "v.b.soc")
  else if parameter = "power" then
    valueIfSupported env ["v.b.power"] (env.metricValue "v.b.power")
  else if parameter = "speed" then
    valueIfSupported env ["v.p.speed"] (env.metricValue "v.p.speed")
  else if parameter = "lat" then
    valueIfSupported env ["v.p.latitude"] (env.metricValue "v.p.latitude")
  else if parameter = "lon" then
    valueIfSupported env ["v.p.longitude"] (env.metricValue "v.p.longitude")
  else if parameter = "is_charging" then
    if env.vehicleType = "NL" then
      valueIfSupported env ["v.c.state"]
        (.bool (env.metricValue "v.c.state" = .str "charging" ∨
                env.metricValue "v.c.state" = .str "topoff" : Bool))
    else
      valueIfSupported env ["v.c.charging"] (env.metricValue "v.c.charging")
  else if parameter = "is_dcfc" then
    valueIfSupported env ["v.c.mode"]
      (.bool (env.metricValue "v.c.mode" = .str "performance" : Bool))
  else if parameter = "is_parked" then
    valueIfSupported env ["v.e.parktime"]
      (.bool (jsNumGt (env.metricValue "v.e.parktime") 0))
  else if parameter = "capacity" then
    valueIfSupported env ["v.b.cac", "v.b.voltage.nominal"]
      (jsMul (env.metricValue "v.b.cac") (env.metricValue "v.b.voltage.nominal"))
  else if parameter = "kwh_charged" then
    valueIfSupported env ["v.c.charging", "v.c.kwh"]
      (if jsTruthy (env.metricValue "v.c.charging") then env.metricValue "v.c.kwh"
       else .num 0)
  else if parameter = "soh" then
    if env.vehicleType = "NL" then
      valueIfSupported env ["xnl.v.b.soh.instrument"] (env.metricValue "xnl.v.b.soh.instrument")
    else
      valueIfSupported env ["v.b.soh"] (env.metricValue "v.b.soh")
  else if parameter = "heading" then
    valueIfSupported env ["v.p.direction"] (env.metricValue "v.p.direction")
  else if parameter = "elevation" then
    valueIfSupported env ["v.p.altitude"] (env.metricValue "v.p.altitude")
  else if parameter = "ext_temp" then
    valueIfSupported env ["v.e.temp"] (env.metricValue "v.e.temp")
  else if parameter = "batt_temp" then
    valueIfSupported env ["v.b.temp"] (env.metricValue "v.b.temp")
  else if parameter = "voltage" then
    valueIfSupported env ["v.b.voltage"] (env.metricValue "v.b.voltage")
  else if parameter = "current" then
    valueIfSupported env ["v.b.current"] (env.metricValue "v.b.current")
  else if parameter = "odometer" then
    valueIfSupported env ["v.p.odometer"] (env.metricValue "v.p.odometer")
  else if parameter = "est_battery_range" then
    if env.vehicleType = "NL" then
      valueIfSupported env ["xnl.v.b.range.instrument", "v.b.range.ideal"]
        (let instrumentRange :=
          let r := round (env.metricValue "xnl.v.b.range.instrument") 0
          if jsTruthy r then r else .num 0
         let idealRange := round (env.metricValue "v.b.range.ideal") 0
         if jsGtV idealRange (jsMul (.num (11 / 10)) instrumentRange) then idealRange
         else instrumentRange)
    else
      valueIfSupported env ["v.b.range.est"] (env.metricValue "v.b.range.est")
  else (false, .null)

/-- The `IternioParameters` array of `createTelemetry`
(`src/lib/abrp.js` lines 535-556). -/
def IternioParameters : List String :=
  ["utc", "soc", "power", "speed", "lat", "lon", "is_charging", "is_dcfc",
   "is_parked", "capacity", "kwh_charged", "soh", "heading", "elevation",
   "ext_temp", "batt_temp", "voltage", "current", "odometer",
   "est_battery_range"]

/-- One step of `createTelemetry`'s loop: the property is added to the
record only when the metric is supported. -/
def metricField (env : Env) (parameter : String) : Option JSValue :=
  let result := getOVMSMetric env parameter
  if result.1 then some result.2 else none

/-- The canonical telemetry record: one optional property per
`IternioParameters` entry (`none` = property absent from the object). -/
structure Telemetry where
  utc : Option JSValue := none
  soc : Option JSValue := none
  power : Option JSValue := none
  speed : Option JSValue := none
  lat : Option JSValue := none
  lon : Option JSValue := none
  is_charging : Option JSValue := none
  is_dcfc : Option JSValue := none
  is_parked : Option JSValue := none
  capacity : Option JSValue := none
  kwh_charged : Option JSValue := none
  soh : Option JSValue := none
  heading : Option JSValue := none
  elevation : Option JSValue := none
  ext_temp : Option JSValue := none
  batt_temp : Option JSValue := none
  voltage : Option JSValue := none
  current : Option JSValue := none
  odometer : Option JSValue := none
  est_battery_range : Option JSValue := none
deriving DecidableEq

/-- Function `createTelemetry` from `src/lib/abrp.js` lines 534-578: for every
parameter in `IternioParameters`, query `getOVMSMetric` and add the
value to the record only when it is supported. -/
def createTelemetry (env : Env) : Telemetry where
  utc := metricField env "utc"
  soc := metricField env "soc"
  power := metricField env "power"
  speed := metricField env "speed"
  lat := metricField env "lat"
  lon := metricField env "lon"
  is_charging := metricField env "is_charging"
  is_dcfc := metricField env "is_dcfc"
  is_parked := metricField env "is_parked"
  capacity := metricField env "capacity"
  kwh_charged := metricField env "kwh_charged"
  soh := metricField env "soh"
  heading := metricField env "heading"
  elevation := metricField env "elevation"
  ext_temp := metricField env "ext_temp"
  batt_temp := metricField env "batt_temp"
  voltage := metricField env "voltage"
  current := metricField env "current"
  odometer := metricField env "odometer"
  est_battery_range := metricField env "est_battery_range"

/-- Function `round` restricted to numbers: the rational returned by
`round(q, p)` (`0` is returned unchanged by the falsy guard). -/
def roundQ (q : ℚ) (p : ℕ) : ℚ :=
  if q = 0 then q else roundTo q p

lemma round_num (q : ℚ) (p : ℕ) : round (.num q) p = .num (roundQ q p) := by
  unfold round roundQ jsTruthy
  by_cases h : q = 0 <;> simp [h]

/-- The `requiredMetrics` list assigned by each recognised case of
`getOVMSMetric`'s switch (`[]` for `utc`, which is unconditionally
supported). -/
def requiredMetricsFor (env : Env) (parameter : String) : List String :=
  if parameter = "utc" then []
  else if parameter = "soc" then
    if env.vehicleType = "NL" then ["xnl.v.b.soc.instrument"] else ["v.b.soc"]
  else if parameter = "power" then ["v.b.power"]
  else if parameter = "speed" then ["v.p.speed"]
  else if parameter = "lat" then ["v.p.latitude"]
  else if parameter = "lon" then ["v.p.longitude"]
  else if parameter = "is_charging" then
    if env.vehicleType = "NL" then ["v.c.state"] else ["v.c.charging"]
  else if parameter = "is_dcfc" then ["v.c.mode"]
  else if parameter = "is_parked" then ["v.e.parktime"]
  else if parameter = "capacity" then ["v.b.cac", "v.b.voltage.nominal"]
  else if parameter = "kwh_charged" then ["v.c.charging", "v.c.kwh"]
  else if parameter = "soh" then
    if env.vehicleType = "NL" then ["xnl.v.b.soh.instrument"] else ["v.b.soh"]
  else if parameter = "heading" then ["v.p.direction"]
  else if parameter = "elevation" then ["v.p.altitude"]
  else if parameter = "ext_temp" then ["v.e.temp"]
  else if parameter = "batt_temp" then ["v.b.temp"]
  else if parameter = "voltage" then ["v.b.voltage"]
  else if parameter = "current" then ["v.b.current"]
  else if parameter = "odometer" then ["v.p.odometer"]
  else if parameter = "est_battery_range" then
    if env.vehicleType = "NL" then ["xnl.v.b.range.instrument", "v.b.range.ideal"]
    else ["v.b.range.est"]
  else []

lemma isOvmsMetricSupported_eq_false {env : Env} {l : List String} {m : String}
    (hm : m ∈ l) (h : env.hasValue m = false) :
    isOvmsMetricSupported env l = false := by
  unfold isOvmsMetricSupported
  rw [Bool.eq_false_iff]
  intro hall
  have := List.all_eq_true.mp hall m hm
  rw [h] at this
  exact Bool.false_ne_true this

lemma valueIfSupported_fst (env : Env) (l : List String) (v : JSValue) :
    (valueIfSupported env l v).1 = isOvmsMetricSupported env l := by
  unfold valueIfSupported
  split <;> simp_all

lemma getOVMSMetric_fst (env : Env) (p : String) (hp : p ∈ IternioParameters) :
    (getOVMSMetric env p).1 = isOvmsMetricSupported env (requiredMetricsFor env p) := by
  fin_cases hp <;>
    first
      | (simp [getOVMSMetric, requiredMetricsFor, valueIfSupported_fst,
          isOvmsMetricSupported]
         done)
      | (by_cases hv : env.vehicleType = "NL" <;>
          simp [getOVMSMetric, requiredMetricsFor, valueIfSupported_fst, hv])

/-- C5: a canonical field whose backing signals include one that the
registry reports unsupported is omitted from the record entirely (the
property is absent, not `null` or `0`); in particular the derived
`capacity` field is omitted when either `v.b.cac` or
`v.b.voltage.nominal` is missing, and is the product of the two signal
values (not a default) when both are supported. -/
theorem telemetry_omits_unsupported_fields :
    (∀ env : Env, ∀ p ∈ IternioParameters,
      (∃ m ∈ requiredMetricsFor env p, env.hasValue m = false) →
      (getOVMSMetric env p).1 = false) ∧
    (∀ (env : Env) (p : String), (getOVMSMetric env p).1 = false →
      metricField env p = none) ∧
    (∀ env : Env,
      env.hasValue "v.b.cac" = false ∨ env.hasValue "v.b.voltage.nominal" = false →
      (createTelemetry env).capacity = none) ∧
    (∀ env : Env,
      env.hasValue "v.b.cac" = true → env.hasValue "v.b.voltage.nominal" = true →
      (createTelemetry env).capacity =
        some (jsMul (env.metricValue "v.b.cac") (env.metricValue "v.b.voltage.nominal"))) := by
  have habsent : ∀ (env : Env) (p : String), (getOVMSMetric env p).1 = false →
      metricField env p = none := by
    intro env p h
    simp [metricField, h]
  refine ⟨?_, habsent, ?_, ?_⟩
  · rintro env p hp ⟨m, hm, hfalse⟩
    rw [getOVMSMetric_fst env p hp]
    exact isOvmsMetricSupported_eq_false hm hfalse
  · intro env h
    have hcap : (createTelemetry env).capacity = metricField env "capacity" := rfl
    rw [hcap]
    refine habsent env _ ?_
    rw [getOVMSMetric_fst env _ (by simp [IternioParameters])]
    rcases h with h | h
    · exact isOvmsMetricSupported_eq_false (by simp [requiredMetricsFor]) h
    · exact isOvmsMetricSupported_eq_false (by simp [requiredMetricsFor]) h
  · intro env h1 h2
    have hcap : (createTelemetry env).capacity = metricField env "capacity" := rfl
    rw [hcap]
    have hsup : isOvmsMetricSupported env ["v.b.cac", "v.b.voltage.nominal"] = true := by
      simp [isOvmsMetricSupported, h1, h2]
    simp [metricField, getOVMSMetric, valueIfSupported, hsup]

/-- An environment with an empty metrics registry. -/
def envEmptyRegistry : Env where
  vehicleType := ""
  now := 1000
  hasValue := fun _ => false
  metricValue := fun _ => JSValue.undef
  user_token := .str "secret"

/-- Witness for C5: with `v.b.cac` unsupported the record carries no
`capacity` property. -/
theorem telemetry_omits_unsupported_fields_witness :
    (createTelemetry envEmptyRegistry).capacity = none :=
  telemetry_omits_unsupported_fields.2.2.1 envEmptyRegistry (Or.inl rfl)

/-- An environment whose charge mode reads `performance` while
`v.c.charging` reads `false`. -/
def envModeOnly : Env where
  vehicleType := ""
  now := 1000
  hasValue := fun name => name = "v.c.mode" || name = "v.c.charging"
  metricValue := fun name =>
    if name = "v.c.mode" then .str "performance"
    else if name = "v.c.charging" then .bool false
    else JSValue.undef
  user_token := .str "secret"

/-- An environment where only the charge-mode metric is supported. -/
def envModeNoCharging : Env where
  vehicleType := ""
  now := 1000
  hasValue := fun name => name = "v.c.mode"
  metricValue := fun name => if name = "v.c.mode" then .str "performance" else JSValue.undef
  user_token := .str "secret"

/-- C3 (violated by the code): `getOVMSMetric("is_dcfc")` derives the
value from `v.c.mode === 'performance'` alone, never consulting the
charging state, so the record can carry `is_dcfc: true` while
`is_charging` is `false` — and even while `is_charging` is absent
altogether. -/
theorem is_dcfc_true_without_charging :
    (createTelemetry envModeOnly).is_dcfc = some (.bool true) ∧
    (createTelemetry envModeOnly).is_charging = some (.bool false) ∧
    (createTelemetry envModeNoCharging).is_dcfc = some (.bool true) ∧
    (createTelemetry envModeNoCharging).is_charging = none := by
  refine ⟨rfl, rfl, rfl, rfl⟩

/-- An `NL` environment whose raw instrument range is `10.4` km and raw
ideal range is `11.45` km; the raw ideal exceeds 110% of the raw
instrument range (`11.45 > 11.44`). -/
def envRangeNL : Env where
  vehicleType := "NL"
  now := 1000
  hasValue := fun name =>
    name = "xnl.v.b.range.instrument" || name = "v.b.range.ideal"
  metricValue := fun name =>
    if name = "xnl.v.b.range.instrument" then .num (52 / 5)
    else if name = "v.b.range.ideal" then .num (229 / 20)
    else JSValue.undef
  user_token := .str "secret"

lemma round_ten_point_four : round (.num (52 / 5)) 0 = .num 10 := by
  rw [round_num]
  unfold roundQ roundTo roundHalfAway
  norm_num

lemma round_eleven_point_four_five : round (.num (229 / 20)) 0 = .num 11 := by
  rw [round_num]
  unfold roundQ roundTo roundHalfAway
  norm_num

/-- C9 counterexample: with raw signals instrument = 10.4 and ideal =
11.45 the claim's fallback condition holds (the ideal range exceeds
110% of the instrument range), so the claim makes the field equal the
ideal range; the code instead rounds both signals to integers before
comparing and yields 10 — neither the ideal range nor the raw
instrument range. -/
theorem nl_range_claim_counterexample :
    (createTelemetry envRangeNL).est_battery_range = some (.num 10) ∧
    (229 / 20 : ℚ) > 11 / 10 * (52 / 5) ∧
    (10 : ℚ) ≠ 229 / 20 ∧ (10 : ℚ) ≠ 52 / 5 := by
  refine ⟨?_, by norm_num, by norm_num, by norm_num⟩
  show metricField envRangeNL "est_battery_range" = _
  simp only [metricField, getOVMSMetric, envRangeNL, valueIfSupported,
    isOvmsMetricSupported, String.reduceEq]
  norm_num [round_ten_point_four, round_eleven_point_four_five, jsTruthy,
    jsGtV, jsMul]

/-- C9 as amended: for vehicle type `NL`, `est_battery_range` is
omitted whenever either the instrument-range or the ideal-range signal
is unsupported; when both are supported (with numeric values) the field
carries the integer-rounded ideal range if it exceeds 110% of the
integer-rounded instrument range, and the integer-rounded instrument
range otherwise. -/
theorem nl_range_amended :
    (∀ env : Env, env.vehicleType = "NL" →
      (env.hasValue "xnl.v.b.range.instrument" = false ∨
       env.hasValue "v.b.range.ideal" = false) →
      (createTelemetry env).est_battery_range = none) ∧
    (∀ (env : Env) (qi qd : ℚ), env.vehicleType = "NL" →
      env.hasValue "xnl.v.b.range.instrument" = true →
      env.hasValue "v.b.range.ideal" = true →
      env.metricValue "xnl.v.b.range.instrument" = .num qi →
      env.metricValue "v.b.range.ideal" = .num qd →
      (createTelemetry env).est_battery_range =
        some (if roundQ qd 0 > 11 / 10 * roundQ qi 0 then JSValue.num (roundQ qd 0)
              else .num (roundQ qi 0))) := by
  constructor
  · intro env hv h
    have hsup : isOvmsMetricSupported env ["xnl.v.b.range.instrument", "v.b.range.ideal"]
        = false := by
      rcases h with h | h
      · exact isOvmsMetricSupported_eq_false (by simp) h
      · exact isOvmsMetricSupported_eq_false (by simp) h
    show metricField env "est_battery_range" = none
    simp [metricField, getOVMSMetric, hv, valueIfSupported, hsup]
  · intro env qi qd hv h1 h2 hqi hqd
    have hsup : isOvmsMetricSupported env ["xnl.v.b.range.instrument", "v.b.range.ideal"]
        = true := by
      simp [isOvmsMetricSupported, h1, h2]
    have hinstr : (if jsTruthy (.num (roundQ qi 0)) then JSValue.num (roundQ qi 0)
        else .num 0) = .num (roundQ qi 0) := by
      by_cases h : roundQ qi 0 = 0 <;> simp [jsTruthy, h]
    show metricField env "est_battery_range" = _
    simp only [metricField, getOVMSMetric, hv, valueIfSupported, hsup,
      String.reduceEq, if_true, hqi, hqd, round_num, hinstr, jsGtV, jsMul]
    by_cases hcmp : roundQ qd 0 > 11 / 10 * roundQ qi 0 <;> simp [hcmp]

/-- Witness for C9's amended theorem at the concrete `NL` environment. -/
theorem nl_range_amended_witness :
    (createTelemetry envRangeNL).est_battery_range =
      some (if roundQ (229 / 20) 0 > 11 / 10 * roundQ (52 / 5) 0
            then JSValue.num (roundQ (229 / 20) 0) else .num (roundQ (52 / 5) 0)) :=
  nl_range_amended.2 envRangeNL (52 / 5) (229 / 20) rfl rfl rfl rfl rfl

/-- Constant `MIN_CALIBRATION_SPEED` from `src/lib/abrp.js` line 6 (70 kph in
version 2.1.0-alpha). -/
def MIN_CALIBRATION_SPEED : ℚ := 70

/-- Function `isSignificantTelemetryChange` from `src/lib/abrp.js` lines
161-186: significant when the state of charge, the charging flag or the
parked flag differ (strict `!==` on the field values, absent fields
reading as `undefined`), or when charging and the integer-rounded power
differs from the previously sent integer-rounded power. -/
def isSignificantTelemetryChange (currentTelemetry previousTelemetry : Telemetry) : Bool :=
  if readField currentTelemetry.soc ≠ readField previousTelemetry.soc then true
  else if readField currentTelemetry.is_charging ≠
      readField previousTelemetry.is_charging then true
  else if readField currentTelemetry.is_parked ≠
      readField previousTelemetry.is_parked then true
  else if jsTruthy (readField currentTelemetry.is_charging) = true ∧
      round (readField currentTelemetry.power) 0 ≠
        round (readField previousTelemetry.power) 0 then true
  else false

/-- C4: `isSignificantTelemetryChange` is true exactly when the state
of charge differs, the charging flag differs, the parked flag differs,
or the record is charging and the integer-rounded power differs from
the previously sent integer-rounded power; when all compared fields
agree it is false. -/
theorem isSignificant_iff :
    (∀ cur prev : Telemetry,
      isSignificantTelemetryChange cur prev = true ↔
        (readField cur.soc ≠ readField prev.soc ∨
         readField cur.is_charging ≠ readField prev.is_charging ∨
         readField cur.is_parked ≠ readField prev.is_parked ∨
         (jsTruthy (readField cur.is_charging) = true ∧
          round (readField cur.power) 0 ≠ round (readField prev.power) 0))) ∧
    (∀ cur prev : Telemetry,
      readField cur.soc = readField prev.soc →
      readField cur.is_charging = readField prev.is_charging →
      readField cur.is_parked = readField prev.is_parked →
      round (readField cur.power) 0 = round (readField prev.power) 0 →
      isSignificantTelemetryChange cur prev = false) := by
  constructor
  · intro cur prev
    unfold isSignificantTelemetryChange
    split_ifs with h1 h2 h3 h4 <;> simp_all
  · intro cur prev e1 e2 e3 e4
    unfold isSignificantTelemetryChange
    split_ifs <;> simp_all

/-- A record whose state of charge is 50 %. -/
def telemetrySoc50 : Telemetry := { soc := some (.num 50) }

/-- A record whose state of charge is 49 %. -/
def telemetrySoc49 : Telemetry := { soc := some (.num 49) }

/-- Witness for C4: a lone state-of-charge difference is significant. -/
theorem isSignificant_iff_witness :
    isSignificantTelemetryChange telemetrySoc50 telemetrySoc49 = true :=
  (isSignificant_iff.1 telemetrySoc50 telemetrySoc49).mpr (Or.inl (by decide))

/-- The `maxElapsedDuration` selection of `sendTelemetryIfNecessary`
(`src/lib/abrp.js` lines 615-658), with that function's timeout
constants (lines 616-619). -/
def maxElapsedDuration (currentTelemetry lastSentTelemetry : Telemetry) : ℚ :=
  let maxCalibrationTimeout : ℚ := 5
  let maxChargingTimeout : ℚ := 30 * 60
  let staleConnectionTimeout : ℚ := 3 * 60
  let staleConnectionTimeoutBuffer : ℚ := 20
  if isSignificantTelemetryChange currentTelemetry lastSentTelemetry = true then 0
  else if jsNumGt (readField currentTelemetry.speed) MIN_CALIBRATION_SPEED = true then
    maxCalibrationTimeout
  else if (!jsTruthy (readField currentTelemetry.is_parked) ||
      jsTruthy (readField currentTelemetry.is_dcfc)) = true then
    staleConnectionTimeout - staleConnectionTimeoutBuffer
  else if jsTruthy (readField currentTelemetry.is_charging) = true then
    maxChargingTimeout
  else 24 * 3600

/-- The spec's `maxAllowedInterval` rule table (spec §4.4), written
from its words: first matching rule wins — 0 on a significant change;
5 s above the 70 km/h calibration threshold; 160 s when not parked or
DC-fast-charging; 30 min (1800 s) for standard charging; 24 h
(86400 s) otherwise. -/
def specMaxAllowedInterval (significant : Bool) (cur : Telemetry) : ℚ :=
  if significant = true then 0
  else if jsNumGt (readField cur.speed) 70 = true then 5
  else if (!jsTruthy (readField cur.is_parked) ||
      jsTruthy (readField cur.is_dcfc)) = true then 160
  else if jsTruthy (readField cur.is_charging) = true then 1800
  else 86400

/-- C1: for every current and last-sent record the code's
`maxElapsedDuration` selection equals the spec's priority rule table,
and in particular a significant change forces the interval to 0
irrespective of every other field value. -/
theorem maxAllowedInterval_policy :
    (∀ cur prev : Telemetry,
      maxElapsedDuration cur prev =
        specMaxAllowedInterval (isSignificantTelemetryChange cur prev) cur) ∧
    (∀ cur prev : Telemetry, isSignificantTelemetryChange cur prev = true →
      maxElapsedDuration cur prev = 0) := by
  constructor
  · intro cur prev
    unfold maxElapsedDuration specMaxAllowedInterval MIN_CALIBRATION_SPEED
    split_ifs <;> norm_num
  · intro cur prev h
    unfold maxElapsedDuration
    simp [h]

/-- Witness for C1: the significant state-of-charge change above
forces a zero interval. -/
theorem maxAllowedInterval_policy_witness :
    maxElapsedDuration telemetrySoc50 telemetrySoc49 = 0 :=
  maxAllowedInterval_policy.2 telemetrySoc50 telemetrySoc49 (by decide)

/-- Observable side effects of the plugin: error logs, warnings, the
fire-and-forget HTTP telemetry request and `OvmsNotify.Raise`
notifications. -/
inductive Action where
  | logError (message : String)
  | logWarn (message : String)
  | httpSend (telemetry : Telemetry)
  | raiseNotify (kind subtype message : String)
deriving DecidableEq

/-- The process-wide mutable variables of the script
(`src/lib/abrp.js` lines 123-128), with their initial values as
defaults. -/
structure AgentState where
  collectedMetrics : List SampleEntry := []
  lastSentTelemetry : Telemetry := { utc := some (.num 0) }
  subscribedLowFrequency : Bool := false
  subscribedHighFrequency : Bool := false
deriving DecidableEq

/-- The initial `AgentState` of a freshly loaded script. -/
def initialAgentState : AgentState := {}

/-- Function `sendTelemetry` from `src/lib/abrp.js` lines 584-610: aborts with
an error log — and no HTTP request — when the configured token is
falsy; otherwise issues the asynchronous HTTP request. -/
def sendTelemetry (env : Env) (telemetry : Telemetry) : List Action :=
  if jsTruthy env.user_token = false then
    [.logError "config usr abrp.user_token not set"]
  else
    [.httpSend telemetry]

/-- The current telemetry assembled by `sendTelemetryIfNecessary`
(`src/lib/abrp.js` lines 621-636): the mapper output, with `power` and
`speed` overwritten by the median high-rate sample — power rounded to
2 decimal places, speed to integer — when samples were collected. -/
def currentTelemetry (env : Env) (st : AgentState) : Telemetry :=
  let cur := createTelemetry env
  if st.collectedMetrics.isEmpty then cur
  else
    match medianPowerMetrics st.collectedMetrics with
    | none => cur
    | some medianMetrics =>
        { cur with
            power := some (round (.num medianMetrics.power) 2)
            speed := some (round (.num medianMetrics.speed) 0) }

/-- The send test of `sendTelemetryIfNecessary` (lines 638 and 660):
`elapsed >= maxElapsedDuration` with `elapsed = currentTelemetry.utc -
lastSentTelemetry.utc`. -/
def shouldSend (env : Env) (st : AgentState) : Bool :=
  jsGeV
    (jsSub (readField (currentTelemetry env st).utc)
      (readField st.lastSentTelemetry.utc))
    (.num (maxElapsedDuration (currentTelemetry env st) st.lastSentTelemetry))

/-- Function `sendTelemetryIfNecessary` from `src/lib/abrp.js` lines 615-670 as
a state transition: assemble the current record, clear the sample
buffer, transmit and update `lastSentTelemetry` when the elapsed time
reaches the allowed interval, and keep the high-rate subscription
active iff the record is not parked. -/
def sendTelemetryIfNecessary (env : Env) (st : AgentState) :
    AgentState × List Action :=
  let cur := currentTelemetry env st
  let actions := if shouldSend env st then sendTelemetry env cur else []
  let lastSent := if shouldSend env st then cur else st.lastSentTelemetry
  ({ st with
      collectedMetrics := []
      lastSentTelemetry := lastSent
      subscribedHighFrequency :=
        if jsTruthy (readField cur.is_parked) then false else true },
    actions)

/-- C10: on a tick where the elapsed time reaches the allowed
interval, the dispatcher sets `lastSentTelemetry` to the current record
unconditionally — in particular also when `sendTelemetry` aborts with
only an error log and no HTTP request because the configured token is
missing — so the never-transmitted record still suppresses re-sends. -/
theorem lastSent_updated_without_token :
    ∀ (env : Env) (st : AgentState),
      shouldSend env st = true →
      jsTruthy env.user_token = false →
      (sendTelemetryIfNecessary env st).1.lastSentTelemetry =
        currentTelemetry env st ∧
      (sendTelemetryIfNecessary env st).2 =
        [Action.logError "config usr abrp.user_token not set"] ∧
      ∀ t : Telemetry, Action.httpSend t ∉ (sendTelemetryIfNecessary env st).2 := by
  intro env st h1 h2
  refine ⟨?_, ?_, ?_⟩ <;> simp [sendTelemetryIfNecessary, sendTelemetry, h1, h2]

/-- An environment with an empty registry and no configured token,
observed at `utc = 1000000`. -/
def envNoToken : Env where
  vehicleType := ""
  now := 1000000
  hasValue := fun _ => false
  metricValue := fun _ => JSValue.undef
  user_token := JSValue.undef

lemma currentTelemetry_envNoToken :
    currentTelemetry envNoToken initialAgentState = { utc := some (.num 1000000) } := by
  decide

lemma maxElapsedDuration_envNoToken :
    maxElapsedDuration { utc := some (.num 1000000) } { utc := some (.num 0) } = 160 := by
  have hsig : isSignificantTelemetryChange { utc := some (.num 1000000) }
      { utc := some (.num 0) } = false := by decide
  unfold maxElapsedDuration
  rw [hsig]
  norm_num [readField, jsNumGt, jsTruthy]

lemma shouldSend_envNoToken : shouldSend envNoToken initialAgentState = true := by
  unfold shouldSend
  rw [currentTelemetry_envNoToken]
  show jsGeV (jsSub (readField (some (.num 1000000))) (readField (some (.num 0))))
    (.num (maxElapsedDuration { utc := some (.num 1000000) } { utc := some (.num 0) }))
    = true
  rw [maxElapsedDuration_envNoToken]
  norm_num [readField, jsSub, jsGeV]

/-- Witness for C10: with no token configured and an interval long
expired, the tick logs an error, sends nothing, and still records the
current telemetry as last sent. -/
theorem lastSent_updated_without_token_witness :
    shouldSend envNoToken initialAgentState = true ∧
    (sendTelemetryIfNecessary envNoToken initialAgentState).1.lastSentTelemetry =
      currentTelemetry envNoToken initialAgentState ∧
    (sendTelemetryIfNecessary envNoToken initialAgentState).2 =
      [Action.logError "config usr abrp.user_token not set"] :=
  ⟨shouldSend_envNoToken,
    (lastSent_updated_without_token envNoToken initialAgentState
      shouldSend_envNoToken rfl).1,
    (lastSent_updated_without_token envNoToken initialAgentState
      shouldSend_envNoToken rfl).2.1⟩

/-- An environment whose only supported metric is a latitude of
`1.234567`°, with a token configured, observed at `utc = 1000000`. -/
def envUnroundedLat : Env where
  vehicleType := ""
  now := 1000000
  hasValue := fun name => name = "v.p.latitude"
  metricValue := fun name =>
    if name = "v.p.latitude" then .num (1234567 / 1000000) else JSValue.undef
  user_token := .str "secret"

lemma currentTelemetry_envUnroundedLat :
    currentTelemetry envUnroundedLat initialAgentState =
      { utc := some (.num 1000000), lat := some (.num (1234567 / 1000000)) } := rfl

lemma shouldSend_envUnroundedLat : shouldSend envUnroundedLat initialAgentState = true := by
  unfold shouldSend
  rw [currentTelemetry_envUnroundedLat]
  have hsig : isSignificantTelemetryChange
      { utc := some (.num 1000000), lat := some (.num (1234567 / 1000000)) }
      { utc := some (.num 0) } = false := rfl
  show jsGeV (jsSub (readField (some (.num 1000000))) (readField (some (.num 0))))
    (.num (maxElapsedDuration
      { utc := some (.num 1000000), lat := some (.num (1234567 / 1000000)) }
      { utc := some (.num 0) })) = true
  unfold maxElapsedDuration
  rw [hsig]
  norm_num [readField, jsNumGt, jsTruthy, jsSub, jsGeV]

/-- C6 counterexample: the record the dispatcher compares and
transmits keeps the raw latitude `1.234567…` — the code of version
2.1.0-alpha applies no 5-decimal rounding to `lat` (nor any rounding to
`lon`, `current`, or the other mapper fields) before the significance
comparison or the transmission. -/
theorem rounding_claim_counterexample :
    (sendTelemetryIfNecessary envUnroundedLat initialAgentState).2 =
      [Action.httpSend (currentTelemetry envUnroundedLat initialAgentState)] ∧
    (currentTelemetry envUnroundedLat initialAgentState).lat =
      some (.num (1234567 / 1000000)) ∧
    round (.num (1234567 / 1000000)) 5 ≠ JSValue.num (1234567 / 1000000) := by
  refine ⟨?_, rfl, ?_⟩
  · simp only [sendTelemetryIfNecessary, shouldSend_envUnroundedLat, if_true]
    simp [sendTelemetry, envUnroundedLat, jsTruthy]
  · rw [round_num]
    simp only [ne_eq, JSValue.num.injEq]
    unfold roundQ roundTo roundHalfAway
    norm_num

/-- C6 as amended: the mapper stores raw metric values and the
dispatcher transmits them unrounded; the only rounding applied before
the significance comparison and the transmission is the sample-smoother
override — when high-rate samples were collected, `power` is rounded
to 2 decimal places and `speed` to integer — and the `round` function
maps exactly `0`, `null` and `undefined` to themselves rather than
dropping them. -/
theorem rounding_amended :
    (∀ (env : Env) (st : AgentState) (m : SampleEntry),
      medianPowerMetrics st.collectedMetrics = some m →
      (currentTelemetry env st).power = some (round (.num m.power) 2) ∧
      (currentTelemetry env st).speed = some (round (.num m.speed) 0)) ∧
    (∀ (env : Env) (st : AgentState), st.collectedMetrics = [] →
      currentTelemetry env st = createTelemetry env) ∧
    (∀ p : ℕ, round (.num 0) p = .num 0) ∧
    (∀ p : ℕ, round JSValue.undef p = JSValue.undef) ∧
    (∀ p : ℕ, round .null p = .null) := by
  refine ⟨?_, ?_, fun p => rfl, fun p => rfl, fun p => rfl⟩
  · intro env st m hm
    have hne : st.collectedMetrics.isEmpty = false := by
      cases h : st.collectedMetrics with
      | nil => rw [h] at hm; exact absurd hm (by simp [medianPowerMetrics])
      | cons a l => simp [h]
    constructor <;> simp [currentTelemetry, hne, hm]
  · intro env st h
    simp [currentTelemetry, h]

/-- Witness for C6's amended theorem: one collected sample of 10.123 kW
at 63.4 km/h is rounded to 2 decimals / integer in the merged record. -/
theorem rounding_amended_witness :
    (currentTelemetry envNoToken
        { initialAgentState with collectedMetrics := [⟨10123 / 1000, 317 / 5⟩] }).power =
      some (round (.num (10123 / 1000)) 2) ∧
    (currentTelemetry envNoToken
        { initialAgentState with collectedMetrics := [⟨10123 / 1000, 317 / 5⟩] }).speed =
      some (round (.num (317 / 5)) 0) :=
  rounding_amended.1 envNoToken
    { initialAgentState with collectedMetrics := [⟨10123 / 1000, 317 / 5⟩] }
    ⟨10123 / 1000, 317 / 5⟩ rfl

/-- Function `validateUsrAbrpConfig` from `src/lib/abrp.js` lines 677-688:
raises the configuration-error notification and reports failure when
the token is falsy. -/
def validateUsrAbrpConfig (env : Env) : Bool × List Action :=
  if jsTruthy env.user_token = false then
    (false,
      [.raiseNotify "error" "usr.abrp.status" "ABRP::config usr abrp.user_token not set"])
  else (true, [])

/-- Function `send(onoff)` from `src/lib/abrp.js` lines 837-858 as a transition
on the subscription state: on start, validate the configuration first,
then refuse with a warning when already running, else subscribe and
notify; on stop, warn when already stopped, else unsubscribe both
tickers and notify. -/
def send (onoff : Bool) (env : Env) (st : AgentState) : AgentState × List Action :=
  if onoff then
    if (validateUsrAbrpConfig env).1 = false then (st, (validateUsrAbrpConfig env).2)
    else if st.subscribedLowFrequency = true then (st, [.logWarn "Already running !"])
    else
      ({ st with subscribedLowFrequency := true },
        [.raiseNotify "info" "usr.abrp.status" "ABRP::started"])
  else
    if st.subscribedLowFrequency = false then (st, [.logWarn "Already stopped !"])
    else
      ({ st with subscribedLowFrequency := false, subscribedHighFrequency := false },
        [.raiseNotify "info" "usr.abrp.status" "ABRP::stopped"])

/-- The C7 claim as stated: starting with the token absent leaves the
agent `Stopped` (low-frequency subscription off) and raises only the
configuration-error notification; starting when already running — with
no proviso about the token — is a no-op surfacing only a warning, as
is stopping when already stopped. -/
def startStopClaim : Prop :=
  (∀ (env : Env) (st : AgentState), jsTruthy env.user_token = false →
    (send true env st).1.subscribedLowFrequency = false ∧
    (send true env st).2 =
      [.raiseNotify "error" "usr.abrp.status" "ABRP::config usr abrp.user_token not set"]) ∧
  (∀ (env : Env) (st : AgentState), st.subscribedLowFrequency = true →
    (send true env st).1 = st ∧ (send true env st).2 = [.logWarn "Already running !"]) ∧
  (∀ (env : Env) (st : AgentState), st.subscribedLowFrequency = false →
    (send false env st).1 = st ∧ (send false env st).2 = [.logWarn "Already stopped !"])

/-- A running agent (low-frequency subscription active). -/
def runningAgentState : AgentState := { subscribedLowFrequency := true }

/-- C7 counterexample: with the token absent *and* the agent already
running, `send(true)` checks the configuration first, so it raises the
error notification (no warning) and the agent stays `Running` — both
halves of the claim fail at this input. -/
theorem startStop_claim_counterexample : ¬ startStopClaim := by
  intro h
  have h1 := (h.1 envNoToken runningAgentState rfl).1
  have : (send true envNoToken runningAgentState).1.subscribedLowFrequency = true := rfl
  rw [this] at h1
  exact Bool.noConfusion h1

/-- C7 as amended: starting with the token absent raises the
configuration-error notification and leaves the whole state unchanged
(a stopped agent stays stopped and no subscription is created, but a
running agent stays running); starting when already running *with a
token configured*, and stopping when already stopped, are no-ops
surfacing only a warning. -/
theorem startStop_amended :
    (∀ (env : Env) (st : AgentState), jsTruthy env.user_token = false →
      (send true env st).1 = st ∧
      (send true env st).2 =
        [.raiseNotify "error" "usr.abrp.status"
          "ABRP::config usr abrp.user_token not set"]) ∧
    (∀ (env : Env) (st : AgentState), jsTruthy env.user_token = true →
      st.subscribedLowFrequency = true →
      (send true env st).1 = st ∧
      (send true env st).2 = [.logWarn "Already running !"]) ∧
    (∀ (env : Env) (st : AgentState), st.subscribedLowFrequency = false →
      (send false env st).1 = st ∧
      (send false env st).2 = [.logWarn "Already stopped !"]) := by
  refine ⟨?_, ?_, ?_⟩
  · intro env st h
    constructor <;> simp [send, validateUsrAbrpConfig, h]
  · intro env st htok hrun
    constructor <;> simp [send, validateUsrAbrpConfig, htok, hrun]
  · intro env st h
    constructor <;> simp [send, h]

/-- Witness for C7's amended theorem: a stopped agent with no token
stays stopped with only the error notification raised. -/
theorem startStop_amended_witness :
    (send true envNoToken initialAgentState).1 = initialAgentState ∧
    (send true envNoToken initialAgentState).2 =
      [Action.raiseNotify "error" "usr.abrp.status"
        "ABRP::config usr abrp.user_token not set"] :=
  startStop_amended.1 envNoToken initialAgentState rfl

end Abrp
